import Mathlib

/-!
Shallow embedding of the trade-validation core of the TradingAgents
repository: `RiskValidator` (tradingagents/agents/utils/risk_validator.py),
`StrategyAnalyzer` (tradingagents/agents/utils/strategy_analyzer.py) and the
coach orchestrator `TradingCoachAgent` (tradingagents/agents/coach/trading_coach.py).

Modelling conventions:
* Python floats are exact rationals (`ℚ`), Python ints are `ℤ`.
* `Optional[...]` values are `Option`s; Python truthiness of an optional
  number (`if x:`) is "present and nonzero".
* Python statements that can raise `ZeroDivisionError` are `Except PyError`
  computations; every `a / b` whose divisor is not already known nonzero on
  the executed path goes through `pyDiv`.
* Message / consequence strings that interpolate numbers are dropped from
  record payloads; the fields that later logic inspects (issue codes,
  approval aspects, the numeric content of suggested fixes) are kept.
-/

inductive PyError
| zeroDivision
deriving DecidableEq, Repr

instance {e a : Type} [DecidableEq e] [DecidableEq a] : DecidableEq (Except e a)
| .error x, .error y =>
  if h : x = y then .isTrue (by rw [h]) else
    .isFalse (by intro hc; cases hc; exact h rfl)
| .error _, .ok _ => .isFalse (by intro hc; cases hc)
| .ok _, .error _ => .isFalse (by intro hc; cases hc)
| .ok x, .ok y =>
  if h : x = y then .isTrue (by rw [h]) else
    .isFalse (by intro hc; cases hc; exact h rfl)

/-- Python float division: raises `ZeroDivisionError` when the divisor is zero. -/
def pyDiv (a b : ℚ) : Except PyError ℚ :=
  if b = 0 then .error .zeroDivision else .ok (a / b)

/-- Python `int(x)` applied to a float: truncation toward zero. -/
def pyTrunc (q : ℚ) : ℤ := q.num.tdiv (q.den : ℤ)

/-- Python `abs(x)` on a float.  (Defined directly so that concrete results
kernel-reduce; `pyAbs_eq` identifies it with Mathlib's absolute value.) -/
def pyAbs (q : ℚ) : ℚ := if q < 0 then -q else q

/-- The normal return value of a possibly raising computation, if any. -/
def toOk {α : Type} : Except PyError α → Option α
| .ok a => some a
| .error _ => none

/-- Truthiness of an optional float (`if x:` in Python): present and nonzero. -/
def truthyQ (x : Option ℚ) : Bool :=
  match x with
  | none => false
  | some v => decide (v ≠ 0)

/-- Truthiness of an optional int (`if x:` in Python): present and nonzero. -/
def truthyI (x : Option ℤ) : Bool :=
  match x with
  | none => false
  | some v => decide (v ≠ 0)

/-- `x and x > 0` in Python, for an optional number: present and positive. -/
def optPosQ (x : Option ℚ) : Bool :=
  match x with
  | none => false
  | some v => decide (0 < v)

/-- `x and x > 0` in Python, for an optional int. -/
def optPosI (x : Option ℤ) : Bool :=
  match x with
  | none => false
  | some v => decide (0 < v)

/-! ## RiskValidator (risk_validator.py) -/

/-- Class constant `MAX_RISK_PERCENT = 3.0`. -/
def MAX_RISK_PERCENT : ℚ := 3

/-- Class constant `RECOMMENDED_RISK_PERCENT = 2.0`. -/
def RECOMMENDED_RISK_PERCENT : ℚ := 2

/-- Class constant `MIN_RISK_REWARD_RATIO = 1.5` (renamed for the scanner). -/
def MIN_RR_REQUIRED : ℚ := 1.5

/-- Class constant `RECOMMENDED_RISK_REWARD_RATIO = 2.0`. -/
def RECOMMENDED_RR : ℚ := 2

/-- Class constant `MAX_POSITION_SIZE_PERCENT = 10.0`. -/
def MAX_POSITION_SIZE_PERCENT : ℚ := 10

/-- Severity levels of a validation result (`"SAFE" / "WARNING" / "CRITICAL"`). -/
inductive Severity
| SAFE
| WARNING
| CRITICAL
deriving DecidableEq, Repr

/-- One entry of the `issues` list.  `itype` is the Python `"type"` key
(always the literal `"CRITICAL"` at every append site), `code` the `"issue"`
key; `fixShares` / `fixTarget` keep the numeric content of the `"fix"` text
when it contains a computed share count or target price. -/
structure RiskIssue where
  itype : String
  code : String
  fixShares : Option ℤ
  fixTarget : Option ℚ
deriving DecidableEq, Repr

/-- One entry of the `warnings` list (always `"type": "WARNING"` in the code). -/
structure RiskWarning where
  code : String
  suggestShares : Option ℤ
  suggestTarget : Option ℚ
deriving DecidableEq, Repr

/-- One entry of the `approvals` list, identified by its `"aspect"` key. -/
structure Approval where
  aspect : String
deriving DecidableEq, Repr

/-- Mutable local state of `validate_trade_plan`: the three lists and the
`severity` variable. -/
structure VState where
  issues : List RiskIssue
  warnings : List RiskWarning
  approvals : List Approval
  severity : Severity
deriving DecidableEq, Repr

/-- `issues.append({...}); severity = "CRITICAL"` — every issue appended by the
source carries `"type": "CRITICAL"` and immediately sets the severity. -/
def addCritical (s : VState) (code : String) (fixShares : Option ℤ)
    (fixTarget : Option ℚ) : VState :=
  { s with
    issues := s.issues ++ [{ itype := "CRITICAL", code := code,
                             fixShares := fixShares, fixTarget := fixTarget }],
    severity := .CRITICAL }

/-- `warnings.append({...}); if severity == "SAFE": severity = "WARNING"`. -/
def addWarning (s : VState) (code : String) (suggestShares : Option ℤ)
    (suggestTarget : Option ℚ) : VState :=
  { s with
    warnings := s.warnings ++ [{ code := code, suggestShares := suggestShares,
                                 suggestTarget := suggestTarget }],
    severity := if s.severity = .SAFE then .WARNING else s.severity }

/-- `approvals.append({...})` — approvals never touch the severity. -/
def addApproval (s : VState) (aspect : String) : VState :=
  { s with approvals := s.approvals ++ [{ aspect := aspect }] }

/-- Critical check 1: `if stop_loss is None` ⇒ issue `NO STOP LOSS`. -/
def step_stop_loss (stop_loss : Option ℚ) (s : VState) : VState :=
  match stop_loss with
  | none => addCritical s "NO STOP LOSS" none none
  | some _ => s

/-- Critical check 2: `if entry_price is None or entry_price <= 0`. -/
def step_entry (entry_price : Option ℚ) (s : VState) : VState :=
  match entry_price with
  | none => addCritical s "INVALID ENTRY PRICE" none none
  | some e => if e ≤ 0 then addCritical s "INVALID ENTRY PRICE" none none else s

/-- The risk-reward sub-block of the metrics section (`if risk_per_share > 0:`
through the three ratio branches). -/
def rr_check (e sl tp : ℚ) (s : VState) : VState :=
  if 0 < pyAbs (e - sl) then
    if pyAbs (tp - e) / pyAbs (e - sl) < MIN_RR_REQUIRED then
      addCritical s "POOR RISK-REWARD RATIO" none
        (some (e + pyAbs (e - sl) * RECOMMENDED_RR))
    else if pyAbs (tp - e) / pyAbs (e - sl) < RECOMMENDED_RR then
      addWarning s "SUBOPTIMAL RISK-REWARD" none
        (some (e + pyAbs (e - sl) * RECOMMENDED_RR))
    else addApproval s "Risk-Reward Ratio"
  else s

/-- The account-risk sub-block of the metrics section, given the computed
`risk_percent` and the operands of the suggested resize. -/
def risk_percent_check (account_size risk_per_share risk_percent : ℚ)
    (s : VState) : VState :=
  if risk_percent > MAX_RISK_PERCENT then
    addCritical s "EXCESSIVE RISK"
      (some (pyTrunc ((account_size * RECOMMENDED_RISK_PERCENT / 100)
        / risk_per_share))) none
  else if risk_percent > RECOMMENDED_RISK_PERCENT then
    addWarning s "HIGH RISK"
      (some (pyTrunc ((account_size * RECOMMENDED_RISK_PERCENT / 100)
        / risk_per_share))) none
  else addApproval s "Risk Percentage"

/-- The position-concentration sub-block of the metrics section. -/
def concentration_check (position_percent : ℚ) (s : VState) : VState :=
  if position_percent > MAX_POSITION_SIZE_PERCENT then
    addWarning s "LARGE POSITION SIZE" none none
  else s

/-- The `if entry_price and stop_loss and take_profit and position_size:` block:
risk-reward check, account-risk check and position-concentration check.  The
division `total_risk / account_size` is the one unguarded division of the
source and is modelled with `pyDiv`; the later `position_value / account_size`
shares the same divisor, which is known nonzero once the first division
succeeded, so it is written with total division. -/
def step_metrics (entry_price stop_loss take_profit : Option ℚ)
    (position_size : Option ℤ) (account_size : ℚ) (s : VState) :
    Except PyError VState :=
  if truthyQ entry_price && truthyQ stop_loss && truthyQ take_profit
      && truthyI position_size then
    let e := entry_price.getD 0
    let sl := stop_loss.getD 0
    let tp := take_profit.getD 0
    let n : ℤ := position_size.getD 0
    let s1 := rr_check e sl tp s
    match pyDiv ((n : ℚ) * pyAbs (e - sl)) account_size with
    | .error err => .error err
    | .ok q =>
      let s2 := risk_percent_check account_size (pyAbs (e - sl)) (q * 100) s1
      .ok (concentration_check (((n : ℚ) * e / account_size) * 100) s2)
  else .ok s

/-- Direction-aware stop-loss placement (`if entry_price and stop_loss:`). -/
def step_stop_placement (entry_price stop_loss : Option ℚ) (dir : String)
    (s : VState) : VState :=
  if truthyQ entry_price && truthyQ stop_loss then
    let e := entry_price.getD 0
    let sl := stop_loss.getD 0
    if dir = "LONG" then
      if sl ≥ e then addCritical s "INVALID STOP LOSS PLACEMENT" none none
      else addApproval s "Stop Loss Placement"
    else if dir = "SHORT" then
      if sl ≤ e then addCritical s "INVALID STOP LOSS PLACEMENT" none none
      else addApproval s "Stop Loss Placement"
    else s
  else s

/-- Direction-aware take-profit placement (`if entry_price and take_profit:`). -/
def step_target_placement (entry_price take_profit : Option ℚ) (dir : String)
    (s : VState) : VState :=
  if truthyQ entry_price && truthyQ take_profit then
    let e := entry_price.getD 0
    let tp := take_profit.getD 0
    if dir = "LONG" then
      if tp ≤ e then addCritical s "INVALID TAKE PROFIT PLACEMENT" none none
      else addApproval s "Take Profit Placement"
    else if dir = "SHORT" then
      if tp ≥ e then addCritical s "INVALID TAKE PROFIT PLACEMENT" none none
      else addApproval s "Take Profit Placement"
    else s
  else s

/-- The compiled validation result dictionary. -/
structure ValidationResult where
  is_valid : Bool
  severity : Severity
  can_execute : Bool
  issues : List RiskIssue
  warnings : List RiskWarning
  approvals : List Approval
deriving DecidableEq, Repr

/-- `RiskValidator.validate_trade_plan`, in the source's evaluation order.
`current_price` is accepted and, as in the source, never used. -/
def validate_trade_plan (entry_price stop_loss take_profit : Option ℚ)
    (position_size : Option ℤ) (account_size _current_price : ℚ)
    (trade_direction : String) : Except PyError ValidationResult :=
  let s0 : VState := ⟨[], [], [], .SAFE⟩
  let s1 := step_stop_loss stop_loss s0
  let s2 := step_entry entry_price s1
  match step_metrics entry_price stop_loss take_profit position_size
      account_size s2 with
  | .error err => .error err
  | .ok s3 =>
    let s4 := step_stop_placement entry_price stop_loss trade_direction s3
    let s5 := step_target_placement entry_price take_profit trade_direction s4
    .ok { is_valid := s5.issues.isEmpty,
          severity := s5.severity,
          can_execute := decide (s5.severity ≠ .CRITICAL),
          issues := s5.issues,
          warnings := s5.warnings,
          approvals := s5.approvals }

/-- Numeric fields of the details dict built by `check_position_sizing`. -/
structure SizingDetails where
  current_size : ℤ
  recommended_size : ℤ
  max_size : ℤ
  risk_percent : ℚ
  total_risk : ℚ
deriving DecidableEq, Repr

/-- Which of the three return branches of `check_position_sizing` fired. -/
inductive SizingTag
| tooLarge
| high
| good
deriving DecidableEq, Repr

/-- Return value of `check_position_sizing`: the bool, the message branch and
the details dict. -/
structure SizingCheck where
  ok : Bool
  tag : SizingTag
  details : SizingDetails
deriving DecidableEq, Repr

/-- `RiskValidator.check_position_sizing`.  The source performs
`total_risk / account_size` first and then divides by `risk_per_share` for the
recommended and maximum sizes, with no zero guards anywhere; each division is
therefore a `pyDiv`. -/
def check_position_sizing (position_size : ℤ)
    (entry_price stop_loss account_size : ℚ) : Except PyError SizingCheck :=
  let risk_per_share := pyAbs (entry_price - stop_loss)
  let total_risk := (position_size : ℚ) * risk_per_share
  match pyDiv total_risk account_size with
  | .error err => .error err
  | .ok q =>
    let risk_percent := q * 100
    match pyDiv (account_size * RECOMMENDED_RISK_PERCENT / 100)
        risk_per_share with
    | .error err => .error err
    | .ok recQ =>
      match pyDiv (account_size * MAX_RISK_PERCENT / 100) risk_per_share with
      | .error err => .error err
      | .ok maxQ =>
        let details : SizingDetails :=
          ⟨position_size, pyTrunc recQ, pyTrunc maxQ, risk_percent, total_risk⟩
        if risk_percent > MAX_RISK_PERCENT then .ok ⟨false, .tooLarge, details⟩
        else if risk_percent > RECOMMENDED_RISK_PERCENT then
          .ok ⟨true, .high, details⟩
        else .ok ⟨true, .good, details⟩

/-- Which return statement of `validate_risk_reward` produced the result. -/
inductive RRTag
| invalidStopLong
| invalidTargetLong
| invalidStopShort
| invalidTargetShort
| zeroRisk
| tooLow
| suboptimal
| excellent
deriving DecidableEq, Repr

/-- Return value of `validate_risk_reward`: `(is_valid, message-branch, ratio)`. -/
structure RRResult where
  ok : Bool
  tag : RRTag
  rr_val : ℚ
deriving DecidableEq, Repr

/-- Shared tail of `validate_risk_reward`: the `risk == 0` guard and the
ratio thresholds, applied to the direction-specific risk and reward. -/
def rrFrom (risk reward : ℚ) : RRResult :=
  if risk = 0 then ⟨false, .zeroRisk, 0⟩
  else
    let rr := reward / risk
    if rr < MIN_RR_REQUIRED then ⟨false, .tooLow, rr⟩
    else if rr < RECOMMENDED_RR then ⟨true, .suboptimal, rr⟩
    else ⟨true, .excellent, rr⟩

/-- `RiskValidator.validate_risk_reward`. -/
def validate_risk_reward (entry stop target : ℚ) (trade_direction : String) :
    RRResult :=
  if trade_direction = "LONG" then
    if stop ≥ entry then ⟨false, .invalidStopLong, 0⟩
    else if target ≤ entry then ⟨false, .invalidTargetLong, 0⟩
    else rrFrom (entry - stop) (target - entry)
  else if trade_direction = "SHORT" then
    if stop ≤ entry then ⟨false, .invalidStopShort, 0⟩
    else if target ≥ entry then ⟨false, .invalidTargetShort, 0⟩
    else rrFrom (stop - entry) (entry - target)
  else rrFrom (pyAbs (entry - stop)) (pyAbs (target - entry))

/-! ## String helpers (Python `in` and `.lower()`) -/

/-- `listStarts p s`: `p` is an initial run of `s` (char lists). -/
def listStarts : List Char → List Char → Bool
| [], _ => true
| _ :: _, [] => false
| p :: ps, c :: cs => p == c && listStarts ps cs

/-- `listHasSub pat s`: `pat` occurs contiguously inside `s` (char lists). -/
def listHasSub (pat : List Char) : List Char → Bool
| [] => pat.isEmpty
| c :: tl => listStarts pat (c :: tl) || listHasSub pat tl

/-- Python `pat in s` (substring containment). -/
def hasSub (s pat : String) : Bool := listHasSub pat.toList s.toList

/-- Python `s.lower()` (ASCII lowering, as used by the source's keyword scans). -/
def strLower (s : String) : String := s.map Char.toLower

/-! ## StrategyAnalyzer (strategy_analyzer.py) -/

/-- The fields of a `market_analysis` mapping read by the analyzer, with the
`.get` defaults already applied (`signal` defaults to `"HOLD"`, `confidence`
to `50`).  An absent or empty (falsy) mapping is `none` at the use site. -/
structure MarketAnalysis where
  signal : String
  confidence : ℚ
deriving DecidableEq, Repr

/-- The fields of a `technical_indicators` mapping read by the analyzer.
`trend` carries its `.get` default `"NEUTRAL"`; `support`, `resistance` and
`rsi` are fetched with `.get(key)` and may be absent. -/
structure TechnicalIndicators where
  trend : String := "NEUTRAL"
  support : Option ℚ := none
  resistance : Option ℚ := none
  rsi : Option ℚ := none
deriving DecidableEq, Repr

/-- The fields of a `sentiment_data` mapping read by the analyzer, defaults
applied (`overall_sentiment` defaults to `"NEUTRAL"`, `score` to `0`). -/
structure SentimentData where
  overall_sentiment : String := "NEUTRAL"
  score : ℚ := 0
deriving DecidableEq, Repr

/-- The weakness strings the analyzer can append.  Payloads keep the values
the source interpolates into the message when they are arbitrary input
strings (these matter for the critical-severity substring scan); purely
numeric interpolations are kept as numbers. -/
inductive Weakness
| missingEntry
| noStopLoss
| noProfitTarget
| noPositionSize
| insufficientReasoning
| marketSaysHold
| directionConflict
| moderateConfidence (c : ℚ)
| lowConfidence (c : ℚ)
| noClearTrend
| againstTrend (trend : String)
| overbought (rsi : ℚ)
| oversold (rsi : ℚ)
| sentimentConflict (sentiment : String)
| noTechnicalReasoning
| emotionalLanguage (count : ℕ)
deriving DecidableEq, Repr

/-- `"CRITICAL" in w or "❌" in w` on the rendered weakness message.  The
fixed message templates around any interpolated value contain neither an
uppercase C adjacent to the slot nor the marker characters, so the substring
test on the full message reduces to the template's own markers plus a scan of
any interpolated input string; numeric interpolations (digits, sign, dot)
can never produce either pattern. -/
def criticalTagged : Weakness → Bool
| .missingEntry => true
| .noStopLoss => true
| .directionConflict => true
| .noTechnicalReasoning => true
| .againstTrend t => hasSub t "CRITICAL" || hasSub t "❌"
| .sentimentConflict sent => hasSub sent "CRITICAL" || hasSub sent "❌"
| _ => false

/-- The strength strings the analyzer can append. -/
inductive Strength
| entryDefined
| stopDefined
| targetDefined
| sizeDefined
| reasoningProvided
| alignsBuy
| alignsSell
| highConfidence (c : ℚ)
| withTrend (trend : String)
| entryNearSupport (s : ℚ)
| stopBelowSupport
| entryNearResistance (r : ℚ)
| stopAboveResistance
| rsiFavorableLong (r : ℚ)
| rsiFavorableShort (r : ℚ)
| sentimentSupports (sentiment : String)
| technicalReasoning
| someTechnicalMention
| objectiveReasoning
| riskManagement
deriving DecidableEq, Repr

/-- The recommendation strings the analyzer can append. -/
inductive Recommendation
| waitForSetup
| reconsiderConflict
| reducePosition
| tighterStops
| counterTrendConfirm
| waitPullback
| tightStopsBounce
| baseOnAnalysis
| removeEmotions
deriving DecidableEq, Repr

/-- Return value of one sub-assessment: partial score plus evidence lists. -/
structure SubScore where
  score : ℤ
  strengths : List Strength
  weaknesses : List Weakness
  recommendations : List Recommendation
deriving DecidableEq, Repr

/-- `StrategyAnalyzer._assess_completeness`. -/
def assess_completeness (entry stop target : Option ℚ) (size : Option ℤ)
    (reasoning : String) : SubScore :=
  let c1 := optPosQ entry
  let c2 := optPosQ stop
  let c3 := optPosQ target
  let c4 := optPosI size
  let c5 := decide (20 < reasoning.length)
  { score := (if c1 then 5 else 0) + (if c2 then 10 else 0)
      + (if c3 then 5 else 0) + (if c4 then 5 else 0) + (if c5 then 5 else 0),
    strengths := (if c1 then [.entryDefined] else [])
      ++ (if c2 then [.stopDefined] else [])
      ++ (if c3 then [.targetDefined] else [])
      ++ (if c4 then [.sizeDefined] else [])
      ++ (if c5 then [.reasoningProvided] else []),
    weaknesses := (if c1 then [] else [.missingEntry])
      ++ (if c2 then [] else [.noStopLoss])
      ++ (if c3 then [] else [.noProfitTarget])
      ++ (if c4 then [] else [.noPositionSize])
      ++ (if c5 then [] else [.insufficientReasoning]),
    recommendations := [] }

/-- `StrategyAnalyzer._assess_market_alignment` (the `entry` parameter is
unused by the source). -/
def assess_market_alignment (direction : String) (m : MarketAnalysis) :
    SubScore :=
  let sig := m.signal
  let conf := m.confidence
  let dirAligned : Bool :=
    (direction = "LONG" ∧ sig = "BUY") ∨ (direction = "SHORT" ∧ sig = "SELL")
  let dirHold : Bool := direction ≠ "HOLD" ∧ sig = "HOLD"
  let dirConflict : Bool :=
    (direction = "LONG" ∧ sig = "SELL") ∨ (direction = "SHORT" ∧ sig = "BUY")
  { score := (if dirAligned then 15 else if dirHold then 5 else 0)
      + (if conf ≥ 70 then 10 else if conf ≥ 50 then 5 else 0),
    strengths :=
      (if dirAligned then
        (if direction = "LONG" ∧ sig = "BUY" then [.alignsBuy] else [.alignsSell])
      else [])
      ++ (if conf ≥ 70 then [.highConfidence conf] else []),
    weaknesses :=
      (if dirAligned then []
       else if dirHold then [.marketSaysHold]
       else if dirConflict then [.directionConflict]
       else [])
      ++ (if conf ≥ 70 then []
          else if conf ≥ 50 then [.moderateConfidence conf]
          else [.lowConfidence conf]),
    recommendations :=
      (if dirAligned then []
       else if dirHold then [.waitForSetup]
       else if dirConflict then [.reconsiderConflict]
       else [])
      ++ (if conf ≥ 70 then [] else if conf ≥ 50 then []
          else [.reducePosition]) }

/-- `StrategyAnalyzer._assess_technical_setup`. -/
def assess_technical_setup (direction : String) (entry stop : Option ℚ)
    (t : TechnicalIndicators) : SubScore :=
  let withTrendB : Bool :=
    (direction = "LONG" ∧ t.trend = "BULLISH")
      ∨ (direction = "SHORT" ∧ t.trend = "BEARISH")
  let supGuard : Bool := direction = "LONG" ∧ truthyQ t.support ∧ truthyQ entry
  let resGuard : Bool :=
    direction = "SHORT" ∧ truthyQ t.resistance ∧ truthyQ entry
  let sup := t.support.getD 0
  let res := t.resistance.getD 0
  let e := entry.getD 0
  let rsi := t.rsi.getD 0
  { score := (if withTrendB then 10 else if t.trend = "NEUTRAL" then 5 else 0)
      + (if supGuard then
          (if e ≤ sup * 1.02 then 10 else 0)
            + (if truthyQ stop ∧ stop.getD 0 < sup then 5 else 0)
         else 0)
      + (if resGuard then
          (if e ≥ res * 0.98 then 10 else 0)
            + (if truthyQ stop ∧ stop.getD 0 > res then 5 else 0)
         else 0)
      + (if truthyQ t.rsi then
          (if direction = "LONG" ∧ 30 ≤ rsi ∧ rsi ≤ 50 then 5
           else if direction = "SHORT" ∧ 50 ≤ rsi ∧ rsi ≤ 70 then 5
           else 0)
         else 0),
    strengths := (if withTrendB then [.withTrend t.trend] else [])
      ++ (if supGuard then
            (if e ≤ sup * 1.02 then [.entryNearSupport sup] else [])
              ++ (if truthyQ stop ∧ stop.getD 0 < sup then [.stopBelowSupport]
                  else [])
          else [])
      ++ (if resGuard then
            (if e ≥ res * 0.98 then [.entryNearResistance res] else [])
              ++ (if truthyQ stop ∧ stop.getD 0 > res then [.stopAboveResistance]
                  else [])
          else [])
      ++ (if truthyQ t.rsi then
            (if direction = "LONG" ∧ 30 ≤ rsi ∧ rsi ≤ 50 then
              [.rsiFavorableLong rsi]
             else if direction = "SHORT" ∧ 50 ≤ rsi ∧ rsi ≤ 70 then
              [.rsiFavorableShort rsi]
             else [])
          else []),
    weaknesses := (if withTrendB then []
        else if t.trend = "NEUTRAL" then [.noClearTrend]
        else [.againstTrend t.trend])
      ++ (if truthyQ t.rsi then
            (if direction = "LONG" ∧ 30 ≤ rsi ∧ rsi ≤ 50 then []
             else if direction = "SHORT" ∧ 50 ≤ rsi ∧ rsi ≤ 70 then []
             else if rsi > 80 then [.overbought rsi]
             else if rsi < 20 then [.oversold rsi]
             else [])
          else []),
    recommendations := (if withTrendB then []
        else if t.trend = "NEUTRAL" then [.tighterStops]
        else [.counterTrendConfirm])
      ++ (if truthyQ t.rsi then
            (if direction = "LONG" ∧ 30 ≤ rsi ∧ rsi ≤ 50 then []
             else if direction = "SHORT" ∧ 50 ≤ rsi ∧ rsi ≤ 70 then []
             else if rsi > 80 then
              (if direction = "LONG" then [.waitPullback] else [])
             else if rsi < 20 then
              (if direction = "SHORT" then [.tightStopsBounce] else [])
             else [])
          else []) }

/-- `StrategyAnalyzer._assess_sentiment_alignment` (the `score` key is read
by the source but never used). -/
def assess_sentiment_alignment (direction : String) (sd : SentimentData) :
    SubScore :=
  let sent := sd.overall_sentiment
  let aligned : Bool :=
    (direction = "LONG" ∧ sent = "BULLISH")
      ∨ (direction = "SHORT" ∧ sent = "BEARISH")
  { score := if aligned then 10 else if sent = "NEUTRAL" then 5 else 0,
    strengths := if aligned then [.sentimentSupports sent] else [],
    weaknesses := if aligned then []
      else if sent = "NEUTRAL" then []
      else [.sentimentConflict sent],
    recommendations := [] }

/-- The analyzer's fixed analytical vocabulary. -/
def analyticalTerms : List String :=
  ["support", "resistance", "trend", "breakout", "volume",
   "momentum", "consolidation", "pattern", "analysis"]

/-- The analyzer's fixed emotional vocabulary. -/
def emotionalTerms : List String :=
  ["hope", "feel", "believe", "gut", "hunch", "revenge",
   "must", "can\x27t lose", "guaranteed"]

/-- The analyzer's risk-management vocabulary. -/
def riskTerms : List String := ["stop", "risk", "position size"]

/-- `sum(1 for term in terms if term in lowered)`. -/
def countTerms (terms : List String) (lowered : String) : ℕ :=
  (terms.filter (fun t => hasSub lowered t)).length

/-- `StrategyAnalyzer._assess_reasoning_quality`. -/
def assess_reasoning_quality (reasoning : String) : SubScore :=
  let lowered := strLower reasoning
  let analysisCount := countTerms analyticalTerms lowered
  let emotionalCount := countTerms emotionalTerms lowered
  let riskMention := riskTerms.any (fun t => hasSub lowered t)
  { score := (if analysisCount ≥ 3 then 10
        else if analysisCount ≥ 1 then 5 else 0)
      + (if emotionalCount > 0 then 0 else 5)
      + (if riskMention then 5 else 0),
    strengths := (if analysisCount ≥ 3 then [.technicalReasoning]
        else if analysisCount ≥ 1 then [.someTechnicalMention] else [])
      ++ (if emotionalCount > 0 then [] else [.objectiveReasoning])
      ++ (if riskMention then [.riskManagement] else []),
    weaknesses := (if analysisCount ≥ 3 then []
        else if analysisCount ≥ 1 then [] else [.noTechnicalReasoning])
      ++ (if emotionalCount > 0 then [.emotionalLanguage emotionalCount]
          else []),
    recommendations := (if analysisCount ≥ 3 then []
        else if analysisCount ≥ 1 then [] else [.baseOnAnalysis])
      ++ (if emotionalCount > 0 then [.removeEmotions] else []) }

/-- Assessment label buckets of `_generate_assessment`. -/
inductive Assessment
| STRONG
| ACCEPTABLE
| WEAK
| POOR
deriving DecidableEq, Repr

/-- `StrategyAnalyzer._generate_assessment`, reduced to its label bucket. -/
def generate_assessment (confidence : ℤ) : Assessment :=
  if confidence ≥ 75 then .STRONG
  else if confidence ≥ 60 then .ACCEPTABLE
  else if confidence ≥ 40 then .WEAK
  else .POOR

/-- Risk levels returned by `_determine_risk_level`. -/
inductive RiskLevel
| LOW
| MEDIUM
| HIGH
deriving DecidableEq, Repr

/-- `StrategyAnalyzer._determine_risk_level`. -/
def determine_risk_level (confidence : ℤ) (weaknesses : List Weakness) :
    RiskLevel :=
  if (weaknesses.filter (fun w => criticalTagged w)).length > 0 then .HIGH
  else if confidence < 50 then .HIGH
  else if confidence < 70 then .MEDIUM
  else .LOW

/-- The execution-advice strings of `_generate_execution_advice`. -/
inductive Advice
| solidExecute
| monitorActively
| smallerPosition
| addIfConfirms
| doNotExecute
| addressWeaknesses
| setStop (s : ℚ)
| neverMoveStop
| partialProfits (p : ℚ)
| fullExit (t : ℚ)
deriving DecidableEq, Repr

/-- `StrategyAnalyzer._generate_execution_advice`. -/
def generate_execution_advice (confidence : ℤ) (stop target : Option ℚ) :
    List Advice :=
  (if confidence ≥ 70 then [.solidExecute, .monitorActively]
   else if confidence ≥ 50 then [.smallerPosition, .addIfConfirms]
   else [.doNotExecute, .addressWeaknesses])
  ++ (if truthyQ stop then [.setStop (stop.getD 0), .neverMoveStop] else [])
  ++ (if truthyQ target then
       [.partialProfits (target.getD 0 * 0.75), .fullExit (target.getD 0)]
      else [])

/-- `min(100, int((confidence_score / max_possible_score) * 100))` with
`max_possible_score = 100`. -/
def normalizeScore (raw : ℤ) : ℤ :=
  min 100 (pyTrunc ((raw : ℚ) / 100 * 100))

/-- The analysis dictionary returned by `analyze_trade_plan`. -/
structure StrategyResult where
  ticker : String
  trade_direction : String
  confidence_score : ℤ
  assessment : Assessment
  strengths : List Strength
  weaknesses : List Weakness
  recommendations : List Recommendation
  risk_level : RiskLevel
  execution_advice : List Advice
deriving DecidableEq, Repr

/-- `StrategyAnalyzer.analyze_trade_plan`.  `market_analysis`,
`technical_indicators` and `sentiment_data` are `none` when absent or falsy
(an empty mapping skips the corresponding block, exactly as `if m:` does). -/
def analyze_trade_plan (ticker : String) (entry stop target : Option ℚ)
    (size : Option ℤ) (trade_direction user_reasoning : String)
    (market_analysis : Option MarketAnalysis)
    (technical_indicators : Option TechnicalIndicators)
    (sentiment_data : Option SentimentData) : StrategyResult :=
  let comp := assess_completeness entry stop target size user_reasoning
  let mk := match market_analysis with
    | some m => assess_market_alignment trade_direction m
    | none => ⟨0, [], [], []⟩
  let tk := match technical_indicators with
    | some t => assess_technical_setup trade_direction entry stop t
    | none => ⟨0, [], [], []⟩
  let sk := match sentiment_data with
    | some sd => assess_sentiment_alignment trade_direction sd
    | none => ⟨0, [], [], []⟩
  let rk := assess_reasoning_quality user_reasoning
  let raw := comp.score + mk.score + tk.score + sk.score + rk.score
  let confidence := normalizeScore raw
  let weaknesses :=
    comp.weaknesses ++ mk.weaknesses ++ tk.weaknesses ++ sk.weaknesses
      ++ rk.weaknesses
  { ticker := ticker,
    trade_direction := trade_direction,
    confidence_score := confidence,
    assessment := generate_assessment confidence,
    strengths := comp.strengths ++ mk.strengths ++ tk.strengths ++ sk.strengths
      ++ rk.strengths,
    weaknesses := weaknesses,
    recommendations := comp.recommendations ++ mk.recommendations
      ++ tk.recommendations ++ sk.recommendations ++ rk.recommendations,
    risk_level := determine_risk_level confidence weaknesses,
    execution_advice := generate_execution_advice confidence stop target }

/-! ## TradingCoachAgent (trading_coach.py) -/

/-- The overall verdict strings of `_determine_verdict` (emoji prefixes of the
source dropped). -/
inductive Verdict
| APPROVED
| CAUTION
| REJECTED
deriving DecidableEq, Repr

/-- `TradingCoachAgent._determine_verdict`. -/
def determine_verdict (risk_val : ValidationResult)
    (strategy : StrategyResult) : Verdict :=
  if risk_val.severity = .CRITICAL then .REJECTED
  else if strategy.confidence_score < 40 then .REJECTED
  else if risk_val.severity = .WARNING ∨ strategy.confidence_score < 60 then
    .CAUTION
  else .APPROVED

/-- The table of `detect_dangerous_patterns`, in source (insertion) order:
pattern text and its severity. -/
def dangerousPatternTable : List (String × String) :=
  [("no stop", "CRITICAL"), ("all in", "CRITICAL"),
   ("averaging down", "CRITICAL"), ("double down", "CRITICAL"),
   ("revenge", "CRITICAL"), ("hope", "WARNING"),
   ("hold forever", "WARNING"), ("can\x27t lose", "WARNING")]

/-- `RiskValidator.detect_dangerous_patterns`: case-insensitive substring scan
of the strategy description against the fixed table. -/
def detect_dangerous_patterns (description : String) :
    List (String × String) :=
  dangerousPatternTable.filter (fun p => hasSub (strLower description) p.1)

/-- `self.current_context` as read by `validate_trade_plan`: `.get` calls on
the session dictionary.  A key that was never set (or was set falsy) is
`none`. -/
structure CoachContext where
  ticker : Option String := none
  current_price : Option ℚ := none
  market_analysis : Option MarketAnalysis := none
  technical_analysis : Option TechnicalIndicators := none
  sentiment_analysis : Option SentimentData := none
deriving Repr

/-- The combined dictionary returned by `TradingCoachAgent.validate_trade_plan`
(the echoed `trade_plan` sub-dictionary is omitted; it copies the inputs). -/
structure CoachResult where
  can_execute : Bool
  overall_verdict : Verdict
  risk_validation : ValidationResult
  strategy_analysis : StrategyResult
  dangerous_patterns : List (String × String)
deriving DecidableEq, Repr

/-- `TradingCoachAgent.validate_trade_plan`: risk validation, then strategy
analysis, then the dangerous-pattern scan, merged into one result.  A
`ZeroDivisionError` raised inside the risk validator propagates. -/
def coach_validate_trade_plan (entry_price : ℚ) (stop_loss take_profit : Option ℚ)
    (position_size : ℤ) (account_size : ℚ) (trade_direction : String)
    (user_reasoning : String) (ctx : CoachContext) :
    Except PyError CoachResult :=
  match validate_trade_plan (some entry_price) stop_loss take_profit
      (some position_size) account_size (ctx.current_price.getD entry_price)
      trade_direction with
  | .error err => .error err
  | .ok risk_validation =>
    let strategy_analysis := analyze_trade_plan (ctx.ticker.getD "UNKNOWN")
      (some entry_price) stop_loss take_profit (some position_size)
      trade_direction user_reasoning ctx.market_analysis
      ctx.technical_analysis ctx.sentiment_analysis
    .ok { can_execute := risk_validation.can_execute
            && decide (strategy_analysis.confidence_score ≥ 50),
          overall_verdict := determine_verdict risk_validation strategy_analysis,
          risk_validation := risk_validation,
          strategy_analysis := strategy_analysis,
          dangerous_patterns := detect_dangerous_patterns user_reasoning }

/-- Return value of `calculate_position_size`: either the explicit error
payload (`{"error": ...}`) or the sizing dictionary. -/
inductive PosSizeResult
| errPayload
| sizes (recommended_size conservative_size aggressive_size : ℤ)
    (risk_per_share dollar_risk position_value position_percent : ℚ)
deriving DecidableEq, Repr

/-- `TradingCoachAgent.calculate_position_size`.  The early return guards
`stop_loss is None or entry_price == stop_loss`; past it `risk_per_share` is
nonzero, so `dollar_risk / risk_per_share` is total, while
`position_value / account_size` has no guard and is a `pyDiv`. -/
def calculate_position_size (entry_price : ℚ) (stop_loss : Option ℚ)
    (account_size risk_percent : ℚ) : Except PyError PosSizeResult :=
  match stop_loss with
  | none => .ok .errPayload
  | some sl =>
    if entry_price = sl then .ok .errPayload
    else
      let risk_per_share := pyAbs (entry_price - sl)
      let dollar_risk := account_size * (risk_percent / 100)
      let size := pyTrunc (dollar_risk / risk_per_share)
      let position_value := (size : ℚ) * entry_price
      match pyDiv position_value account_size with
      | .error err => .error err
      | .ok q =>
        let position_percent := q * 100
        let conservative := pyTrunc ((size : ℚ) * 0.75)
        let aggressive :=
          if risk_percent < 2.5 then pyTrunc ((size : ℚ) * 1.25) else size
        .ok (.sizes size conservative aggressive risk_per_share dollar_risk
          position_value position_percent)

/-! ## Basic lemmas about the numeric helpers -/

theorem pyTrunc_intCast (n : ℤ) : pyTrunc ((n : ℚ)) = n := by
  simp [pyTrunc, Rat.num_intCast, Rat.den_intCast]

theorem pyTrunc_eq_floor {q : ℚ} (h : 0 ≤ q) : pyTrunc q = ⌊q⌋ := by
  rw [pyTrunc, Rat.floor_def]
  exact Int.tdiv_eq_ediv (Rat.num_nonneg.mpr h) (by positivity)

theorem normalizeScore_eq (raw : ℤ) : normalizeScore raw = min 100 raw := by
  rw [normalizeScore, div_mul_cancel₀ _ (by norm_num : (100 : ℚ) ≠ 0),
    pyTrunc_intCast]

/-! ## State lemmas for the validator pipeline -/

/-- The consistency invariant maintained by every append site: the severity is
CRITICAL exactly when an issue has been recorded, and every recorded issue
carries type CRITICAL. -/
def SevInv (s : VState) : Prop :=
  (s.severity = .CRITICAL ↔ s.issues ≠ []) ∧
    ∀ i ∈ s.issues, i.itype = "CRITICAL"

theorem sevInv_init : SevInv ⟨[], [], [], .SAFE⟩ := by
  constructor
  · simp [VState.severity, VState.issues]
  · simp [VState.issues]

theorem sevInv_addCritical {s : VState} (h : SevInv s) (code : String)
    (fs : Option ℤ) (ft : Option ℚ) : SevInv (addCritical s code fs ft) := by
  obtain ⟨_, h2⟩ := h
  constructor
  · simp [addCritical]
  · intro i hi
    rw [addCritical] at hi
    simp only [List.mem_append, List.mem_singleton] at hi
    rcases hi with hi | hi
    · exact h2 i hi
    · rw [hi]

theorem sevInv_addWarning {s : VState} (h : SevInv s) (code : String)
    (ss : Option ℤ) (st : Option ℚ) : SevInv (addWarning s code ss st) := by
  obtain ⟨h1, h2⟩ := h
  constructor
  · simp only [addWarning]
    split
    · next hsafe =>
      constructor
      · intro hw; cases hw
      · intro hne
        exact absurd (hsafe ▸ h1.mpr hne) (by simp)
    · exact h1
  · simpa [addWarning] using h2

theorem sevInv_addApproval {s : VState} (h : SevInv s) (aspect : String) :
    SevInv (addApproval s aspect) := by
  obtain ⟨h1, h2⟩ := h
  exact ⟨by simpa [addApproval] using h1, by simpa [addApproval] using h2⟩

theorem sevInv_step_stop_loss {s : VState} (h : SevInv s) (stop : Option ℚ) :
    SevInv (step_stop_loss stop s) := by
  cases stop with
  | none => exact sevInv_addCritical h _ _ _
  | some v => exact h

theorem sevInv_step_entry {s : VState} (h : SevInv s) (entry : Option ℚ) :
    SevInv (step_entry entry s) := by
  cases entry with
  | none => exact sevInv_addCritical h _ _ _
  | some e =>
    rw [step_entry]
    split
    · exact sevInv_addCritical h _ _ _
    · exact h

theorem sevInv_rr_check {s : VState} (h : SevInv s) (e sl tp : ℚ) :
    SevInv (rr_check e sl tp s) := by
  rw [rr_check]
  split
  · split
    · exact sevInv_addCritical h _ _ _
    · split
      · exact sevInv_addWarning h _ _ _
      · exact sevInv_addApproval h _
  · exact h

theorem sevInv_risk_percent_check {s : VState} (h : SevInv s)
    (account rps rp : ℚ) : SevInv (risk_percent_check account rps rp s) := by
  rw [risk_percent_check]
  split
  · exact sevInv_addCritical h _ _ _
  · split
    · exact sevInv_addWarning h _ _ _
    · exact sevInv_addApproval h _

theorem sevInv_concentration_check {s : VState} (h : SevInv s) (pp : ℚ) :
    SevInv (concentration_check pp s) := by
  rw [concentration_check]
  split
  · exact sevInv_addWarning h _ _ _
  · exact h

theorem sevInv_step_metrics {s s' : VState} (h : SevInv s)
    (entry stop target : Option ℚ) (size : Option ℤ) (account : ℚ)
    (hok : step_metrics entry stop target size account s = .ok s') :
    SevInv s' := by
  rw [step_metrics] at hok
  split at hok
  · dsimp only at hok
    rcases hdiv : pyDiv ((size.getD 0 : ℚ) * pyAbs (entry.getD 0 - stop.getD 0))
        account with err | q
    · rw [hdiv] at hok; cases hok
    · rw [hdiv] at hok
      cases hok
      exact sevInv_concentration_check
        (sevInv_risk_percent_check (sevInv_rr_check h _ _ _) _ _ _) _
  · cases hok
    exact h

theorem sevInv_step_stop_placement {s : VState} (h : SevInv s)
    (entry stop : Option ℚ) (dir : String) :
    SevInv (step_stop_placement entry stop dir s) := by
  rw [step_stop_placement]
  dsimp only
  split
  · split
    · split
      · exact sevInv_addCritical h _ _ _
      · exact sevInv_addApproval h _
    · split
      · split
        · exact sevInv_addCritical h _ _ _
        · exact sevInv_addApproval h _
      · exact h
  · exact h

theorem sevInv_step_target_placement {s : VState} (h : SevInv s)
    (entry target : Option ℚ) (dir : String) :
    SevInv (step_target_placement entry target dir s) := by
  rw [step_target_placement]
  dsimp only
  split
  · split
    · split
      · exact sevInv_addCritical h _ _ _
      · exact sevInv_addApproval h _
    · split
      · split
        · exact sevInv_addCritical h _ _ _
        · exact sevInv_addApproval h _
      · exact h
  · exact h


attribute [simp] addCritical addWarning addApproval

/-- Issue list has an entry with the given issue code. -/
def hasIssueCode (l : List RiskIssue) (c : String) : Prop := ∃ i ∈ l, i.code = c

/-- Approval list has an entry with the given aspect. -/
def hasAspect (l : List Approval) (a : String) : Prop := ∃ x ∈ l, x.aspect = a

theorem severity_addCritical (s : VState) (c : String) (fs : Option ℤ)
    (ft : Option ℚ) : (addCritical s c fs ft).severity = .CRITICAL := rfl

theorem sev_mono_addWarning {s : VState} (h : s.severity = .CRITICAL)
    (c : String) (ss : Option ℤ) (st : Option ℚ) :
    (addWarning s c ss st).severity = .CRITICAL := by
  simp [addWarning, h]

theorem severity_addApproval (s : VState) (a : String) :
    (addApproval s a).severity = s.severity := rfl

theorem sev_mono_rr_check {s : VState} (h : s.severity = .CRITICAL)
    (e sl tp : ℚ) : (rr_check e sl tp s).severity = .CRITICAL := by
  rw [rr_check]
  split_ifs <;>
    simp [severity_addCritical, sev_mono_addWarning h, severity_addApproval, h]

theorem sev_mono_risk_percent_check {s : VState} (h : s.severity = .CRITICAL)
    (a rps rp : ℚ) : (risk_percent_check a rps rp s).severity = .CRITICAL := by
  rw [risk_percent_check]
  split_ifs <;>
    simp [severity_addCritical, sev_mono_addWarning h, severity_addApproval, h]

theorem sev_mono_concentration_check {s : VState} (h : s.severity = .CRITICAL)
    (pp : ℚ) : (concentration_check pp s).severity = .CRITICAL := by
  rw [concentration_check]
  split_ifs <;> simp [sev_mono_addWarning h, h]

theorem sev_mono_step_metrics {s s' : VState} (h : s.severity = .CRITICAL)
    (entry stop target : Option ℚ) (size : Option ℤ) (account : ℚ)
    (hok : step_metrics entry stop target size account s = .ok s') :
    s'.severity = .CRITICAL := by
  rw [step_metrics] at hok
  split at hok
  · dsimp only at hok
    rcases hdiv : pyDiv ((size.getD 0 : ℚ) * pyAbs (entry.getD 0 - stop.getD 0))
        account with err | q
    · rw [hdiv] at hok; cases hok
    · rw [hdiv] at hok
      cases hok
      exact sev_mono_concentration_check
        (sev_mono_risk_percent_check (sev_mono_rr_check h _ _ _) _ _ _) _
  · cases hok; exact h

theorem sev_mono_step_stop_placement {s : VState} (h : s.severity = .CRITICAL)
    (entry stop : Option ℚ) (dir : String) :
    (step_stop_placement entry stop dir s).severity = .CRITICAL := by
  rw [step_stop_placement]
  dsimp only
  split_ifs <;>
    simp [severity_addCritical, severity_addApproval, h]

theorem sev_mono_step_target_placement {s : VState} (h : s.severity = .CRITICAL)
    (entry target : Option ℚ) (dir : String) :
    (step_target_placement entry target dir s).severity = .CRITICAL := by
  rw [step_target_placement]
  dsimp only
  split_ifs <;>
    simp [severity_addCritical, severity_addApproval, h]

theorem issues_addWarning (s : VState) (c : String) (ss : Option ℤ)
    (st : Option ℚ) : (addWarning s c ss st).issues = s.issues := rfl

theorem issues_addApproval (s : VState) (a : String) :
    (addApproval s a).issues = s.issues := rfl

theorem approvals_addCritical (s : VState) (c : String) (fs : Option ℤ)
    (ft : Option ℚ) : (addCritical s c fs ft).approvals = s.approvals := rfl

theorem approvals_addWarning (s : VState) (c : String) (ss : Option ℤ)
    (st : Option ℚ) : (addWarning s c ss st).approvals = s.approvals := rfl

theorem issues_concentration_check (pp : ℚ) (s : VState) :
    (concentration_check pp s).issues = s.issues := by
  rw [concentration_check]
  split <;> rfl

theorem approvals_concentration_check (pp : ℚ) (s : VState) :
    (concentration_check pp s).approvals = s.approvals := by
  rw [concentration_check]
  split <;> rfl

theorem issues_sub_step_stop_loss (stop : Option ℚ) (s : VState) :
    ∀ i ∈ (step_stop_loss stop s).issues,
      i ∈ s.issues ∨ i.code = "NO STOP LOSS" := by
  cases stop <;> simp only [step_stop_loss] <;> aesop

theorem issues_mono_step_stop_loss (stop : Option ℚ) (s : VState) :
    ∀ i ∈ s.issues, i ∈ (step_stop_loss stop s).issues := by
  cases stop <;> simp only [step_stop_loss] <;> aesop

theorem approvals_step_stop_loss (stop : Option ℚ) (s : VState) :
    (step_stop_loss stop s).approvals = s.approvals := by
  cases stop <;> rfl

theorem issues_sub_step_entry (entry : Option ℚ) (s : VState) :
    ∀ i ∈ (step_entry entry s).issues,
      i ∈ s.issues ∨ i.code = "INVALID ENTRY PRICE" := by
  cases entry <;> simp only [step_entry] <;> aesop

theorem issues_mono_step_entry (entry : Option ℚ) (s : VState) :
    ∀ i ∈ s.issues, i ∈ (step_entry entry s).issues := by
  cases entry <;> simp only [step_entry] <;> aesop

theorem approvals_step_entry (entry : Option ℚ) (s : VState) :
    (step_entry entry s).approvals = s.approvals := by
  cases entry with
  | none => rfl
  | some e =>
    rw [step_entry]
    split <;> rfl

theorem issues_sub_rr_check (e sl tp : ℚ) (s : VState) :
    ∀ i ∈ (rr_check e sl tp s).issues,
      i ∈ s.issues ∨ i.code = "POOR RISK-REWARD RATIO" := by
  rw [rr_check]
  split_ifs <;> aesop

theorem issues_mono_rr_check (e sl tp : ℚ) (s : VState) :
    ∀ i ∈ s.issues, i ∈ (rr_check e sl tp s).issues := by
  rw [rr_check]
  split_ifs <;> aesop

theorem approvals_sub_rr_check (e sl tp : ℚ) (s : VState) :
    ∀ a ∈ (rr_check e sl tp s).approvals,
      a ∈ s.approvals ∨ a.aspect = "Risk-Reward Ratio" := by
  rw [rr_check]
  split_ifs <;> aesop

theorem approvals_mono_rr_check (e sl tp : ℚ) (s : VState) :
    ∀ a ∈ s.approvals, a ∈ (rr_check e sl tp s).approvals := by
  rw [rr_check]
  split_ifs <;> aesop

theorem issues_sub_risk_percent_check (a rps rp : ℚ) (s : VState) :
    ∀ i ∈ (risk_percent_check a rps rp s).issues,
      i ∈ s.issues ∨ i.code = "EXCESSIVE RISK" := by
  rw [risk_percent_check]
  split_ifs <;> aesop

theorem issues_mono_risk_percent_check (a rps rp : ℚ) (s : VState) :
    ∀ i ∈ s.issues, i ∈ (risk_percent_check a rps rp s).issues := by
  rw [risk_percent_check]
  split_ifs <;> aesop

theorem approvals_sub_risk_percent_check (a rps rp : ℚ) (s : VState) :
    ∀ x ∈ (risk_percent_check a rps rp s).approvals,
      x ∈ s.approvals ∨ x.aspect = "Risk Percentage" := by
  rw [risk_percent_check]
  split_ifs <;> aesop

theorem approvals_mono_risk_percent_check (a rps rp : ℚ) (s : VState) :
    ∀ x ∈ s.approvals, x ∈ (risk_percent_check a rps rp s).approvals := by
  rw [risk_percent_check]
  split_ifs <;> aesop

theorem issues_sub_step_stop_placement (entry stop : Option ℚ) (dir : String)
    (s : VState) :
    ∀ i ∈ (step_stop_placement entry stop dir s).issues,
      i ∈ s.issues ∨ i.code = "INVALID STOP LOSS PLACEMENT" := by
  rw [step_stop_placement]
  dsimp only
  split_ifs <;> aesop

theorem issues_mono_step_stop_placement (entry stop : Option ℚ) (dir : String)
    (s : VState) :
    ∀ i ∈ s.issues, i ∈ (step_stop_placement entry stop dir s).issues := by
  rw [step_stop_placement]
  dsimp only
  split_ifs <;> aesop

theorem approvals_sub_step_stop_placement (entry stop : Option ℚ)
    (dir : String) (s : VState) :
    ∀ a ∈ (step_stop_placement entry stop dir s).approvals,
      a ∈ s.approvals ∨ a.aspect = "Stop Loss Placement" := by
  rw [step_stop_placement]
  dsimp only
  split_ifs <;> aesop

theorem approvals_mono_step_stop_placement (entry stop : Option ℚ)
    (dir : String) (s : VState) :
    ∀ a ∈ s.approvals, a ∈ (step_stop_placement entry stop dir s).approvals := by
  rw [step_stop_placement]
  dsimp only
  split_ifs <;> aesop

theorem issues_sub_step_target_placement (entry target : Option ℚ)
    (dir : String) (s : VState) :
    ∀ i ∈ (step_target_placement entry target dir s).issues,
      i ∈ s.issues ∨ i.code = "INVALID TAKE PROFIT PLACEMENT" := by
  rw [step_target_placement]
  dsimp only
  split_ifs <;> aesop

theorem issues_mono_step_target_placement (entry target : Option ℚ)
    (dir : String) (s : VState) :
    ∀ i ∈ s.issues, i ∈ (step_target_placement entry target dir s).issues := by
  rw [step_target_placement]
  dsimp only
  split_ifs <;> aesop

theorem approvals_sub_step_target_placement (entry target : Option ℚ)
    (dir : String) (s : VState) :
    ∀ a ∈ (step_target_placement entry target dir s).approvals,
      a ∈ s.approvals ∨ a.aspect = "Take Profit Placement" := by
  rw [step_target_placement]
  dsimp only
  split_ifs <;> aesop

theorem approvals_mono_step_target_placement (entry target : Option ℚ)
    (dir : String) (s : VState) :
    ∀ a ∈ s.approvals, a ∈ (step_target_placement entry target dir s).approvals := by
  rw [step_target_placement]
  dsimp only
  split_ifs <;> aesop

theorem issues_sub_step_metrics {s s' : VState} (entry stop target : Option ℚ)
    (size : Option ℤ) (account : ℚ)
    (hok : step_metrics entry stop target size account s = .ok s') :
    ∀ i ∈ s'.issues,
      i ∈ s.issues ∨ i.code = "POOR RISK-REWARD RATIO"
        ∨ i.code = "EXCESSIVE RISK" := by
  rw [step_metrics] at hok
  split at hok
  · dsimp only at hok
    rcases hdiv : pyDiv ((size.getD 0 : ℚ) * pyAbs (entry.getD 0 - stop.getD 0))
        account with err | q
    · rw [hdiv] at hok; cases hok
    · rw [hdiv] at hok
      cases hok
      intro i hi
      rw [issues_concentration_check] at hi
      rcases issues_sub_risk_percent_check _ _ _ _ i hi with h1 | h1
      · rcases issues_sub_rr_check _ _ _ _ i h1 with h2 | h2
        · exact Or.inl h2
        · exact Or.inr (Or.inl h2)
      · exact Or.inr (Or.inr h1)
  · cases hok
    exact fun i hi => Or.inl hi

theorem issues_mono_step_metrics {s s' : VState} (entry stop target : Option ℚ)
    (size : Option ℤ) (account : ℚ)
    (hok : step_metrics entry stop target size account s = .ok s') :
    ∀ i ∈ s.issues, i ∈ s'.issues := by
  rw [step_metrics] at hok
  split at hok
  · dsimp only at hok
    rcases hdiv : pyDiv ((size.getD 0 : ℚ) * pyAbs (entry.getD 0 - stop.getD 0))
        account with err | q
    · rw [hdiv] at hok; cases hok
    · rw [hdiv] at hok
      cases hok
      intro i hi
      rw [issues_concentration_check]
      exact issues_mono_risk_percent_check _ _ _ _ i
        (issues_mono_rr_check _ _ _ _ i hi)
  · cases hok
    exact fun i hi => hi

theorem approvals_sub_step_metrics {s s' : VState}
    (entry stop target : Option ℚ) (size : Option ℤ) (account : ℚ)
    (hok : step_metrics entry stop target size account s = .ok s') :
    ∀ a ∈ s'.approvals,
      a ∈ s.approvals ∨ a.aspect = "Risk-Reward Ratio"
        ∨ a.aspect = "Risk Percentage" := by
  rw [step_metrics] at hok
  split at hok
  · dsimp only at hok
    rcases hdiv : pyDiv ((size.getD 0 : ℚ) * pyAbs (entry.getD 0 - stop.getD 0))
        account with err | q
    · rw [hdiv] at hok; cases hok
    · rw [hdiv] at hok
      cases hok
      intro a ha
      rw [approvals_concentration_check] at ha
      rcases approvals_sub_risk_percent_check _ _ _ _ a ha with h1 | h1
      · rcases approvals_sub_rr_check _ _ _ _ a h1 with h2 | h2
        · exact Or.inl h2
        · exact Or.inr (Or.inl h2)
      · exact Or.inr (Or.inr h1)
  · cases hok
    exact fun a ha => Or.inl ha

theorem sev_mono_step_entry {s : VState} (h : s.severity = .CRITICAL)
    (entry : Option ℚ) : (step_entry entry s).severity = .CRITICAL := by
  cases entry with
  | none => rfl
  | some e =>
    rw [step_entry]
    split
    · rfl
    · exact h

/-- With `stop_loss = None` the metrics guard is falsy, so the metrics block
is skipped entirely (in particular no division is reached). -/
theorem step_metrics_no_stop (entry target : Option ℚ) (size : Option ℤ)
    (account : ℚ) (s : VState) :
    step_metrics entry none target size account s = .ok s := by
  rw [step_metrics]
  simp [truthyQ]

/-- The invariant carried to the end of the validator pipeline. -/
theorem sevInv_validate {entry stop target : Option ℚ} {size : Option ℤ}
    {account current : ℚ} {dir : String} {r : ValidationResult}
    (hok : validate_trade_plan entry stop target size account current dir
      = .ok r) :
    (r.severity = .CRITICAL ↔ r.issues ≠ []) ∧
      (∀ i ∈ r.issues, i.itype = "CRITICAL") ∧
      r.is_valid = r.issues.isEmpty ∧
      r.can_execute = decide (r.severity ≠ .CRITICAL) := by
  rw [validate_trade_plan] at hok
  dsimp only at hok
  rcases h3 : step_metrics entry stop target size account
      (step_entry entry (step_stop_loss stop ⟨[], [], [], .SAFE⟩)) with err | s3
  · rw [h3] at hok; cases hok
  · rw [h3] at hok
    cases hok
    have h2 : SevInv (step_entry entry (step_stop_loss stop ⟨[], [], [], .SAFE⟩)) :=
      sevInv_step_entry (sevInv_step_stop_loss sevInv_init stop) entry
    have h5 : SevInv (step_target_placement entry target dir
        (step_stop_placement entry stop dir s3)) :=
      sevInv_step_target_placement
        (sevInv_step_stop_placement (sevInv_step_metrics h2 _ _ _ _ _ h3)
          entry stop dir) entry target dir
    obtain ⟨hiff, htype⟩ := h5
    exact ⟨hiff, htype, rfl, rfl⟩

/-- Shape of the claim-C1 statement on the risk-validator result: the call
returns normally with CRITICAL severity and `can_execute = False`. -/
def rejectedNoStop : Except PyError ValidationResult → Prop
| .error _ => False
| .ok r => r.severity = .CRITICAL ∧ r.can_execute = false

/-- Shape of the claim-C1 statement on the orchestrator result. -/
def coachRejectedNoStop : Except PyError CoachResult → Prop
| .error _ => False
| .ok r => r.risk_validation.severity = .CRITICAL ∧
    r.risk_validation.can_execute = false ∧ r.overall_verdict = .REJECTED

/-- Helper: with no stop loss the validator always returns normally, with
CRITICAL severity and `can_execute = false`. -/
theorem validate_no_stop_critical (entry target : Option ℚ) (size : Option ℤ)
    (account current : ℚ) (dir : String) :
    ∃ r, validate_trade_plan entry none target size account current dir
        = .ok r ∧ r.severity = .CRITICAL ∧ r.can_execute = false := by
  rw [validate_trade_plan]
  dsimp only
  rw [step_metrics_no_stop]
  have h2 : (step_entry entry (step_stop_loss none ⟨[], [], [], .SAFE⟩)).severity
      = .CRITICAL := sev_mono_step_entry rfl entry
  have h5 : (step_target_placement entry target dir
      (step_stop_placement entry none dir
        (step_entry entry (step_stop_loss none ⟨[], [], [], .SAFE⟩)))).severity
      = .CRITICAL :=
    sev_mono_step_target_placement
      (sev_mono_step_stop_placement h2 entry none dir) entry target dir
  exact ⟨_, rfl, h5, by simp [h5]⟩

/-- Shape of the claim-C10 statement on a validator call. -/
def resultConsistent : Except PyError ValidationResult → Prop
| .error _ => True
| .ok r => (r.severity = .CRITICAL ↔ r.issues ≠ []) ∧
    (∀ i ∈ r.issues, i.itype = "CRITICAL") ∧ r.is_valid = r.can_execute

/-- C10: in every result returned by `RiskValidator.validate_trade_plan` the
severity is CRITICAL exactly when the issues list is non-empty, every recorded
issue carries type CRITICAL, and consequently `is_valid` (issues empty) and
`can_execute` (severity not CRITICAL) always coincide. -/
theorem C10_is_valid_eq_can_execute (entry stop target : Option ℚ)
    (size : Option ℤ) (account current : ℚ) (dir : String) :
    resultConsistent
      (validate_trade_plan entry stop target size account current dir) := by
  rcases hok : validate_trade_plan entry stop target size account current dir
    with err | r
  · trivial
  · obtain ⟨hiff, htype, hv, hc⟩ := sevInv_validate hok
    refine ⟨hiff, htype, ?_⟩
    rw [hv, hc]
    by_cases hcrit : r.severity = .CRITICAL
    · have hne := hiff.mp hcrit
      simp [hcrit, hne]
    · have hnil : r.issues = [] := by
        by_contra hne
        exact hcrit (hiff.mpr hne)
      simp [hcrit, hnil]

/-- C1: a plan with no stop loss always yields a CRITICAL, non-executable risk
validation, and the orchestrator's overall verdict for such a plan is REJECTED
regardless of every other input (in particular of the strategy confidence). -/
theorem C1_no_stop_rejected :
    (∀ (entry target : Option ℚ) (size : Option ℤ) (account current : ℚ)
        (dir : String),
      rejectedNoStop
        (validate_trade_plan entry none target size account current dir)) ∧
    (∀ (entry : ℚ) (target : Option ℚ) (size : ℤ) (account : ℚ)
        (dir reasoning : String) (ctx : CoachContext),
      coachRejectedNoStop
        (coach_validate_trade_plan entry none target size account dir
          reasoning ctx)) := by
  constructor
  · intro entry target size account current dir
    obtain ⟨r, hr, hsev, hce⟩ :=
      validate_no_stop_critical entry target size account current dir
    rw [hr]
    exact ⟨hsev, hce⟩
  · intro entry target size account dir reasoning ctx
    obtain ⟨r, hr, hsev, hce⟩ :=
      validate_no_stop_critical (some entry) target (some size) account
        (ctx.current_price.getD entry) dir
    rw [coach_validate_trade_plan, hr]
    refine ⟨hsev, hce, ?_⟩
    rw [determine_verdict]
    simp [hsev]

/-- Shape of the claim-C2 statement on an orchestrator call: the combined
`can_execute` and the verdict precedence, stated on the fields of the
returned result. -/
def coachCombineSpec : Except PyError CoachResult → Prop
| .error _ => True
| .ok r =>
    r.can_execute = (r.risk_validation.can_execute
      && decide (r.strategy_analysis.confidence_score ≥ 50)) ∧
    r.overall_verdict =
      (if r.risk_validation.severity = .CRITICAL then .REJECTED
       else if r.strategy_analysis.confidence_score < 40 then .REJECTED
       else if r.risk_validation.severity = .WARNING
           ∨ r.strategy_analysis.confidence_score < 60 then .CAUTION
       else .APPROVED)

/-- C2: every result of the orchestrator's `validate_trade_plan` has
`can_execute = risk.can_execute AND confidence_score ≥ 50`, and its
`overall_verdict` follows exactly the precedence CRITICAL ⇒ REJECTED, else
confidence < 40 ⇒ REJECTED, else WARNING or confidence < 60 ⇒ CAUTION,
else APPROVED. -/
theorem C2_combined_verdict (entry : ℚ) (stop target : Option ℚ) (size : ℤ)
    (account : ℚ) (dir reasoning : String) (ctx : CoachContext) :
    coachCombineSpec
      (coach_validate_trade_plan entry stop target size account dir
        reasoning ctx) := by
  rw [coach_validate_trade_plan]
  rcases hok : validate_trade_plan (some entry) stop target (some size) account
      (ctx.current_price.getD entry) dir with err | rv
  · trivial
  · refine ⟨rfl, ?_⟩
    rw [determine_verdict]

theorem completeness_score_nonneg (entry stop target : Option ℚ)
    (size : Option ℤ) (reasoning : String) :
    0 ≤ (assess_completeness entry stop target size reasoning).score := by
  rw [assess_completeness]
  dsimp only
  split_ifs <;> norm_num

theorem market_score_nonneg (direction : String) (m : MarketAnalysis) :
    0 ≤ (assess_market_alignment direction m).score := by
  rw [assess_market_alignment]
  dsimp only
  split_ifs <;> norm_num

theorem technical_score_nonneg (direction : String) (entry stop : Option ℚ)
    (t : TechnicalIndicators) :
    0 ≤ (assess_technical_setup direction entry stop t).score := by
  rw [assess_technical_setup]
  dsimp only
  split_ifs <;> norm_num

theorem sentiment_score_nonneg (direction : String) (sd : SentimentData) :
    0 ≤ (assess_sentiment_alignment direction sd).score := by
  rw [assess_sentiment_alignment]
  dsimp only
  split_ifs <;> norm_num

theorem reasoning_score_nonneg (reasoning : String) :
    0 ≤ (assess_reasoning_quality reasoning).score := by
  rw [assess_reasoning_quality]
  dsimp only
  split_ifs <;> norm_num

/-- C6: for every combination of inputs — all optional fields absent, any
market / technical / sentiment data — the confidence score returned by
`StrategyAnalyzer.analyze_trade_plan` is an integer in [0, 100]. -/
theorem C6_confidence_score_bounds (ticker : String)
    (entry stop target : Option ℚ) (size : Option ℤ)
    (direction reasoning : String) (market : Option MarketAnalysis)
    (tech : Option TechnicalIndicators) (sent : Option SentimentData) :
    0 ≤ (analyze_trade_plan ticker entry stop target size direction reasoning
        market tech sent).confidence_score ∧
      (analyze_trade_plan ticker entry stop target size direction reasoning
        market tech sent).confidence_score ≤ 100 := by
  have hm : 0 ≤ (match market with
      | some m => assess_market_alignment direction m
      | none => (⟨0, [], [], []⟩ : SubScore)).score := by
    cases market with
    | none => norm_num
    | some m => exact market_score_nonneg direction m
  have ht : 0 ≤ (match tech with
      | some t => assess_technical_setup direction entry stop t
      | none => (⟨0, [], [], []⟩ : SubScore)).score := by
    cases tech with
    | none => norm_num
    | some t => exact technical_score_nonneg direction entry stop t
  have hs : 0 ≤ (match sent with
      | some sd => assess_sentiment_alignment direction sd
      | none => (⟨0, [], [], []⟩ : SubScore)).score := by
    cases sent with
    | none => norm_num
    | some sd => exact sentiment_score_nonneg direction sd
  have hraw : 0 ≤ (assess_completeness entry stop target size reasoning).score
      + (match market with
          | some m => assess_market_alignment direction m
          | none => (⟨0, [], [], []⟩ : SubScore)).score
      + (match tech with
          | some t => assess_technical_setup direction entry stop t
          | none => (⟨0, [], [], []⟩ : SubScore)).score
      + (match sent with
          | some sd => assess_sentiment_alignment direction sd
          | none => (⟨0, [], [], []⟩ : SubScore)).score
      + (assess_reasoning_quality reasoning).score := by
    have h1 := completeness_score_nonneg entry stop target size reasoning
    have h2 := reasoning_score_nonneg reasoning
    positivity
  rw [analyze_trade_plan.eq_def]
  dsimp only
  rw [normalizeScore_eq]
  constructor
  · exact le_min (by norm_num) hraw
  · exact min_le_left _ _

theorem determine_risk_level_spec (conf : ℤ) (ws : List Weakness) :
    (determine_risk_level conf ws = .HIGH ↔
      ((∃ w ∈ ws, criticalTagged w = true) ∨ conf < 50)) ∧
    (determine_risk_level conf ws ≠ .HIGH →
      (determine_risk_level conf ws = .MEDIUM ↔ conf < 70)) ∧
    (determine_risk_level conf ws ≠ .HIGH → ¬ conf < 70 →
      determine_risk_level conf ws = .LOW) := by
  have hfilter : ((ws.filter (fun w => criticalTagged w)).length > 0) ↔
      (∃ w ∈ ws, criticalTagged w = true) := by
    rw [gt_iff_lt, List.length_pos_iff_exists_mem]
    simp [List.mem_filter]
  rw [determine_risk_level]
  split_ifs with h1 h2 h3
  · exact ⟨⟨fun _ => Or.inl (hfilter.mp h1), fun _ => rfl⟩,
      fun hne => absurd rfl hne, fun hne _ => absurd rfl hne⟩
  · exact ⟨⟨fun _ => Or.inr h2, fun _ => rfl⟩,
      fun hne => absurd rfl hne, fun hne _ => absurd rfl hne⟩
  · refine ⟨⟨fun h => absurd h (by decide), fun hor => ?_⟩,
      fun _ => ⟨fun _ => h3, fun _ => rfl⟩, fun _ h70 => absurd h3 h70⟩
    rcases hor with hex | hlt
    · exact absurd (hfilter.mpr hex) h1
    · exact absurd hlt h2
  · refine ⟨⟨fun h => absurd h (by decide), fun hor => ?_⟩,
      fun _ => ⟨fun h => absurd h (by decide), fun hlt => absurd hlt h3⟩,
      fun _ _ => rfl⟩
    rcases hor with hex | hlt
    · exact absurd (hfilter.mpr hex) h1
    · exact absurd hlt h2

/-- Shape of the claim-C8 statement on an analyzer result. -/
def riskLevelSpec (r : StrategyResult) : Prop :=
  (r.risk_level = .HIGH ↔
    ((∃ w ∈ r.weaknesses, criticalTagged w = true)
      ∨ r.confidence_score < 50)) ∧
  (r.risk_level ≠ .HIGH →
    (r.risk_level = .MEDIUM ↔ r.confidence_score < 70)) ∧
  (r.risk_level ≠ .HIGH → ¬ r.confidence_score < 70 → r.risk_level = .LOW)

/-- C8: in every analyzer result, `risk_level` is HIGH exactly when some
weakness is tagged critical-severity (the code's `"CRITICAL"`/`"❌"` scan) or
the confidence score is below 50; otherwise MEDIUM exactly when the score is
below 70; otherwise LOW. -/
theorem C8_risk_level (ticker : String) (entry stop target : Option ℚ)
    (size : Option ℤ) (direction reasoning : String)
    (market : Option MarketAnalysis) (tech : Option TechnicalIndicators)
    (sent : Option SentimentData) :
    riskLevelSpec (analyze_trade_plan ticker entry stop target size direction
      reasoning market tech sent) := by
  rw [riskLevelSpec, analyze_trade_plan.eq_def]
  dsimp only
  exact determine_risk_level_spec _ _

theorem pyAbs_eq (q : ℚ) : pyAbs q = |q| := by
  rw [pyAbs]
  split_ifs with h
  · exact (abs_of_neg h).symm
  · exact (abs_of_nonneg (le_of_not_lt h)).symm

theorem pyAbs_mul_pos {k : ℚ} (hk : 0 < k) (x : ℚ) :
    pyAbs (k * x) = k * pyAbs x := by
  rw [pyAbs_eq, pyAbs_eq, abs_mul, abs_of_pos hk]

theorem rrFrom_scale {k : ℚ} (hk : 0 < k) (a b : ℚ) :
    (rrFrom (k * a) (k * b)).ok = (rrFrom a b).ok ∧
      (rrFrom (k * a) (k * b)).rr_val = (rrFrom a b).rr_val := by
  have hk0 : k ≠ 0 := ne_of_gt hk
  by_cases ha : a = 0
  · simp [rrFrom, ha]
  · have hka : k * a ≠ 0 := mul_ne_zero hk0 ha
    have hdiv : (k * b) / (k * a) = b / a := mul_div_mul_left b a hk0
    rw [rrFrom, rrFrom]
    simp [ha, hka, hdiv]

/-- C9: the risk-reward check of `RiskValidator.validate_risk_reward` is
scale-invariant — multiplying entry, stop and target by one positive constant
leaves both the computed ratio and the validity outcome unchanged, for every
direction string. -/
theorem C9_rr_scale_invariant (entry stop target : ℚ) (dir : String) (k : ℚ)
    (hk : 0 < k) :
    (validate_risk_reward (k * entry) (k * stop) (k * target) dir).ok
        = (validate_risk_reward entry stop target dir).ok ∧
      (validate_risk_reward (k * entry) (k * stop) (k * target) dir).rr_val
        = (validate_risk_reward entry stop target dir).rr_val := by
  have hk0 : k ≠ 0 := ne_of_gt hk
  have hle : ∀ a b : ℚ, (k * a ≤ k * b) = (a ≤ b) := fun a b =>
    propext (mul_le_mul_left hk)
  rw [validate_risk_reward, validate_risk_reward]
  by_cases hd : dir = "LONG"
  · simp only [hd, if_true, ge_iff_le, hle]
    by_cases h1 : entry ≤ stop
    · simp [h1]
    · by_cases h2 : target ≤ entry
      · simp [h1, h2]
      · simp only [h1, h2, if_false, ← mul_sub]
        exact rrFrom_scale hk _ _
  · by_cases hd2 : dir = "SHORT"
    · simp only [hd, hd2, if_false, if_true, ge_iff_le, hle]
      by_cases h1 : stop ≤ entry
      · simp [h1]
      · by_cases h2 : entry ≤ target
        · simp [h1, h2]
        · simp only [h1, h2, if_false, ← mul_sub]
          exact rrFrom_scale hk _ _
    · simp only [hd, hd2, if_false, ← mul_sub, pyAbs_mul_pos hk]
      exact rrFrom_scale hk _ _

/-- Witness for C9 at entry 100, stop 98, target 106, direction LONG and
scale factor 2. -/
theorem C9_rr_scale_invariant_witness :
    (0 : ℚ) < 2 ∧
      ((validate_risk_reward (2 * 100) (2 * 98) (2 * 106) "LONG").ok
          = (validate_risk_reward 100 98 106 "LONG").ok ∧
        (validate_risk_reward (2 * 100) (2 * 98) (2 * 106) "LONG").rr_val
          = (validate_risk_reward 100 98 106 "LONG").rr_val) :=
  ⟨by norm_num, C9_rr_scale_invariant 100 98 106 "LONG" 2 (by norm_num)⟩

/-- C3 (code bug): the ratio / position-size arithmetic is NOT protected.
`check_position_sizing` with `entry = stop` reaches an unguarded division by
the zero risk-per-share, and `validate_trade_plan` with `account_size = 0`
(and all plan fields present) reaches an unguarded division by the account
size; both raise `ZeroDivisionError` instead of short-circuiting to an error
payload as the specification requires. -/
theorem C3_zero_division_bug :
    check_position_sizing 10 50 50 10000 = .error .zeroDivision ∧
      validate_trade_plan (some 100) (some 98) (some 106) (some 50) 0 100
        "LONG" = .error .zeroDivision := by
  constructor
  · rw [check_position_sizing.eq_def]
    norm_num [pyAbs, pyDiv]
  · rw [validate_trade_plan.eq_def]
    norm_num [step_stop_loss, step_entry, step_metrics, rr_check, truthyQ,
      truthyI, pyAbs, pyDiv]

/-- Shape of the claim-C5 statement on a validator call: the stop-placement
issue appears exactly when the placement is bad, and the corresponding
approval exactly otherwise. -/
def stopPlacementSpec (bad : Prop) : Except PyError ValidationResult → Prop
| .error _ => True
| .ok r => (hasIssueCode r.issues "INVALID STOP LOSS PLACEMENT" ↔ bad) ∧
    (hasAspect r.approvals "Stop Loss Placement" ↔ ¬ bad)

theorem placement_iff_core (e stop : ℚ) (target : Option ℚ) (size : Option ℤ)
    (account current : ℚ) (dir : String) (bad : Prop)
    (hbadEq : bad → ∀ st : VState,
      step_stop_placement (some e) (some stop) dir st =
        addCritical st "INVALID STOP LOSS PLACEMENT" none none)
    (hgoodEq : ¬ bad → ∀ st : VState,
      step_stop_placement (some e) (some stop) dir st =
        addApproval st "Stop Loss Placement")
    (hinit : step_entry (some e) (step_stop_loss (some stop)
      ⟨[], [], [], .SAFE⟩) = ⟨[], [], [], .SAFE⟩) :
    stopPlacementSpec bad
      (validate_trade_plan (some e) (some stop) target size account current
        dir) := by
  rcases hok : validate_trade_plan (some e) (some stop) target size account
      current dir with err | r
  · trivial
  · rw [validate_trade_plan] at hok
    dsimp only at hok
    rw [hinit] at hok
    rcases h3 : step_metrics (some e) (some stop) target size account
        ⟨[], [], [], .SAFE⟩ with err | s3
    · rw [h3] at hok; cases hok
    · rw [h3] at hok
      cases hok
      by_cases hb : bad
      · rw [hbadEq hb]
        refine ⟨iff_of_true ?_ hb, iff_of_false ?_ (not_not_intro hb)⟩
        · refine ⟨⟨"CRITICAL", "INVALID STOP LOSS PLACEMENT", none, none⟩,
            ?_, rfl⟩
          apply issues_mono_step_target_placement
          simp
        · rintro ⟨a, ha, hasp⟩
          rcases approvals_sub_step_target_placement _ _ _ _ a ha with h4 | h4
          · rw [approvals_addCritical] at h4
            rcases approvals_sub_step_metrics _ _ _ _ _ h3 a h4 with h5 | h5 | h5
            · simp at h5
            · rw [hasp] at h5; exact absurd h5 (by decide)
            · rw [hasp] at h5; exact absurd h5 (by decide)
          · rw [hasp] at h4; exact absurd h4 (by decide)
      · rw [hgoodEq hb]
        refine ⟨iff_of_false ?_ hb, iff_of_true ?_ hb⟩
        · rintro ⟨i, hi, hcode⟩
          rcases issues_sub_step_target_placement _ _ _ _ i hi with h4 | h4
          · rw [issues_addApproval] at h4
            rcases issues_sub_step_metrics _ _ _ _ _ h3 i h4 with h5 | h5 | h5
            · simp at h5
            · rw [hcode] at h5; exact absurd h5 (by decide)
            · rw [hcode] at h5; exact absurd h5 (by decide)
          · rw [hcode] at h4; exact absurd h4 (by decide)
        · refine ⟨⟨"Stop Loss Placement"⟩, ?_, rfl⟩
          apply approvals_mono_step_target_placement
          simp

/-- C5: for entry and stop both present and positive, a LONG validation emits
the CRITICAL issue INVALID STOP LOSS PLACEMENT exactly when stop ≥ entry and
records the placement approval otherwise; a SHORT validation emits it exactly
when stop ≤ entry and records the approval otherwise (on every normally
returned result). -/
theorem C5_stop_placement (e stop : ℚ) (target : Option ℚ) (size : Option ℤ)
    (account current : ℚ) (he : 0 < e) (hs : 0 < stop) :
    stopPlacementSpec (stop ≥ e)
      (validate_trade_plan (some e) (some stop) target size account current
        "LONG") ∧
    stopPlacementSpec (stop ≤ e)
      (validate_trade_plan (some e) (some stop) target size account current
        "SHORT") := by
  have hinit : step_entry (some e) (step_stop_loss (some stop)
      ⟨[], [], [], .SAFE⟩) = ⟨[], [], [], .SAFE⟩ := by
    simp [step_stop_loss, step_entry, not_le.mpr he]
  constructor
  · apply placement_iff_core _ _ _ _ _ _ _ _ ?_ ?_ hinit
    · intro hb st
      rw [step_stop_placement]
      simp [truthyQ, ne_of_gt he, ne_of_gt hs, hb]
    · intro hb st
      rw [step_stop_placement]
      simp [truthyQ, ne_of_gt he, ne_of_gt hs, hb]
  · apply placement_iff_core _ _ _ _ _ _ _ _ ?_ ?_ hinit
    · intro hb st
      rw [step_stop_placement]
      simp [truthyQ, ne_of_gt he, ne_of_gt hs, hb]
    · intro hb st
      rw [step_stop_placement]
      simp [truthyQ, ne_of_gt he, ne_of_gt hs, hb]

/-- Witness for C5 at entry 100, stop 102 (scenario C of the specification). -/
theorem C5_stop_placement_witness :
    (0 : ℚ) < 100 ∧ (0 : ℚ) < 102 ∧
      (stopPlacementSpec ((102 : ℚ) ≥ 100)
        (validate_trade_plan (some 100) (some 102) none none 10000 100
          "LONG") ∧
      stopPlacementSpec ((102 : ℚ) ≤ 100)
        (validate_trade_plan (some 100) (some 102) none none 10000 100
          "SHORT")) :=
  ⟨by norm_num, by norm_num,
    C5_stop_placement 100 102 none none 10000 100 (by norm_num) (by norm_num)⟩

/-- C4 counterexample: with take_profit absent, entry 100, stop 90, 100
shares and a 10000 account — an account risk of 10%, far above the 3%
limit — the validator reports NO issue at all (severity SAFE, empty issues
list), because the whole metrics block is gated on take_profit being
present.  This refutes the claim that the account-risk rule is applied
independently of take_profit. -/
theorem C4_counterexample :
    ((100 : ℚ) * pyAbs (100 - 90) / 10000 * 100 > 3) ∧
      validate_trade_plan (some 100) (some 90) none (some 100) 10000 100
          "LONG" =
        .ok { is_valid := true, severity := .SAFE, can_execute := true,
              issues := [], warnings := [],
              approvals := [⟨"Stop Loss Placement"⟩] } := by
  constructor
  · norm_num [pyAbs]
  · rw [validate_trade_plan.eq_def]
    norm_num [step_stop_loss, step_entry, step_metrics, step_stop_placement,
      step_target_placement, truthyQ, truthyI]
    decide

/-- Shape of the amended claim C4 on a validator call. -/
def excessiveRiskReported (account rps : ℚ) :
    Except PyError ValidationResult → Prop
| .error _ => False
| .ok r => (∃ i ∈ r.issues, i.code = "EXCESSIVE RISK" ∧
      i.fixShares = some (pyTrunc ((account * RECOMMENDED_RISK_PERCENT / 100)
        / rps))) ∧
    r.severity = .CRITICAL

/-- C4 (amended): whenever entry, stop, take_profit and position size are all
present and truthy (entry and stop positive, take_profit nonzero, size
positive) and the account is positive, an account risk above 3% makes
`validate_trade_plan` report the CRITICAL issue EXCESSIVE RISK, with the fix
resized to the recommended 2% risk, and overall severity CRITICAL — for
every direction string.  (As the counterexample shows, the rule is skipped
when take_profit is absent, contrary to the original claim.) -/
theorem C4_excessive_risk (e s t : ℚ) (n : ℤ) (account current : ℚ)
    (dir : String) (he : 0 < e) (hs : 0 < s) (ht : t ≠ 0) (hn : 0 < n)
    (ha : 0 < account)
    (hrisk : (n : ℚ) * pyAbs (e - s) / account * 100 > 3) :
    excessiveRiskReported account (pyAbs (e - s))
      (validate_trade_plan (some e) (some s) (some t) (some n) account
        current dir) := by
  have hne : account ≠ 0 := ne_of_gt ha
  have hstep : ∀ st : VState,
      step_metrics (some e) (some s) (some t) (some n) account st =
        .ok (concentration_check (((n : ℚ) * e / account) * 100)
          (addCritical (rr_check e s t st) "EXCESSIVE RISK"
            (some (pyTrunc ((account * RECOMMENDED_RISK_PERCENT / 100)
              / pyAbs (e - s)))) none)) := by
    intro st
    rw [step_metrics]
    have hguard : (truthyQ (some e) && truthyQ (some s) && truthyQ (some t)
        && truthyI (some n)) = true := by
      simp [truthyQ, truthyI, ne_of_gt he, ne_of_gt hs, ht, ne_of_gt hn]
    rw [if_pos hguard]
    dsimp only [Option.getD]
    rw [pyDiv, if_neg hne]
    dsimp only
    rw [risk_percent_check, if_pos (by simpa [MAX_RISK_PERCENT] using hrisk)]
  rw [validate_trade_plan]
  dsimp only
  rw [hstep]
  dsimp only
  constructor
  · refine ⟨⟨"CRITICAL", "EXCESSIVE RISK",
      some (pyTrunc ((account * RECOMMENDED_RISK_PERCENT / 100)
        / pyAbs (e - s))), none⟩, ?_, rfl, rfl⟩
    apply issues_mono_step_target_placement
    apply issues_mono_step_stop_placement
    rw [issues_concentration_check]
    simp
  · apply sev_mono_step_target_placement
    apply sev_mono_step_stop_placement
    exact sev_mono_concentration_check rfl _

/-- Witness for the amended C4 at entry 100, stop 90, target 120, 100 shares,
account 10000 (risking 10% of the account). -/
theorem C4_excessive_risk_witness :
    (0 : ℚ) < 100 ∧ (0 : ℚ) < 90 ∧ (120 : ℚ) ≠ 0 ∧ (0 : ℤ) < 100 ∧
      (0 : ℚ) < 10000 ∧
      ((100 : ℤ) : ℚ) * pyAbs (100 - 90) / 10000 * 100 > 3 ∧
      excessiveRiskReported 10000 (pyAbs (100 - 90))
        (validate_trade_plan (some 100) (some 90) (some 120) (some 100) 10000
          100 "LONG") :=
  ⟨by norm_num, by norm_num, by norm_num, by norm_num, by norm_num,
    by norm_num [pyAbs],
    C4_excessive_risk 100 90 120 100 10000 100 "LONG" (by norm_num)
      (by norm_num) (by norm_num) (by norm_num) (by norm_num)
      (by norm_num [pyAbs])⟩

theorem pyAbs_pos {x : ℚ} (h : x ≠ 0) : 0 < pyAbs x := by
  rw [pyAbs_eq]
  exact abs_pos.mpr h

/-- C7 counterexample: with a stop loss that is present and different from the
entry (so the claim promises the sizing dictionary), but `account_size = 0`,
`calculate_position_size` raises `ZeroDivisionError` at the position-percent
division instead of returning the recommended sizes. -/
theorem C7_counterexample :
    (40 : ℚ) ≠ 50 ∧
      calculate_position_size 50 (some 40) 0 2 = .error .zeroDivision := by
  refine ⟨by norm_num, ?_⟩
  rw [calculate_position_size.eq_def]
  norm_num [pyDiv]

/-- The recommended share count of the specification:
`floor(dollar_risk / risk_per_share)`. -/
def specRecommended (e s account rp : ℚ) : ℤ :=
  ⌊account * (rp / 100) / pyAbs (e - s)⌋

/-- C7 (amended): `calculate_position_size` returns the error payload exactly
when the stop is absent or equals the entry; in every other case with a
positive account size and a nonnegative risk percent (under which Python's
`int` truncation coincides with `floor`) it returns
`recommended = floor(dollar_risk / risk_per_share)`, a conservative size of
`floor(0.75 × recommended)`, and an aggressive size of
`floor(1.25 × recommended)` when `risk_percent < 2.5` and `recommended`
otherwise.  (As the counterexample shows, with `account_size = 0` the source
raises instead of returning, contrary to the original claim.) -/
theorem C7_position_size (e : ℚ) (stop : Option ℚ) (account rp : ℚ)
    (ha : 0 < account) (hrp : 0 ≤ rp) :
    ((calculate_position_size e stop account rp = .ok .errPayload) ↔
      (stop = none ∨ stop = some e)) ∧
    (∀ s, stop = some s → s ≠ e →
      calculate_position_size e stop account rp =
        .ok (.sizes (specRecommended e s account rp)
          ⌊(specRecommended e s account rp : ℚ) * 0.75⌋
          (if rp < 2.5 then ⌊(specRecommended e s account rp : ℚ) * 1.25⌋
           else specRecommended e s account rp)
          (pyAbs (e - s)) (account * (rp / 100))
          ((specRecommended e s account rp : ℚ) * e)
          ((specRecommended e s account rp : ℚ) * e / account * 100))) := by
  have hane : account ≠ 0 := ne_of_gt ha
  cases stop with
  | none =>
    refine ⟨iff_of_true rfl (Or.inl rfl), ?_⟩
    intro s hs
    cases hs
  | some s =>
    by_cases hse : e = s
    · subst hse
      constructor
      · rw [calculate_position_size, if_pos rfl]
        exact iff_of_true rfl (Or.inr rfl)
      · intro s' hs' hne
        cases hs'
        exact absurd rfl hne
    · have hrps : 0 < pyAbs (e - s) := pyAbs_pos (sub_ne_zero.mpr hse)
      have hdr : 0 ≤ account * (rp / 100) :=
        mul_nonneg ha.le (div_nonneg hrp (by norm_num))
      have hq : 0 ≤ account * (rp / 100) / pyAbs (e - s) :=
        div_nonneg hdr hrps.le
      have h1 : pyTrunc (account * (rp / 100) / pyAbs (e - s))
          = specRecommended e s account rp := pyTrunc_eq_floor hq
      have hrec : 0 ≤ (specRecommended e s account rp : ℚ) := by
        rw [← h1, pyTrunc_eq_floor hq]
        exact_mod_cast Int.floor_nonneg.mpr hq
      have h2 : pyTrunc ((specRecommended e s account rp : ℚ) * 0.75)
          = ⌊(specRecommended e s account rp : ℚ) * 0.75⌋ :=
        pyTrunc_eq_floor (mul_nonneg hrec (by norm_num))
      have h3 : pyTrunc ((specRecommended e s account rp : ℚ) * 1.25)
          = ⌊(specRecommended e s account rp : ℚ) * 1.25⌋ :=
        pyTrunc_eq_floor (mul_nonneg hrec (by norm_num))
      have heq : calculate_position_size e (some s) account rp =
          .ok (.sizes (specRecommended e s account rp)
            ⌊(specRecommended e s account rp : ℚ) * 0.75⌋
            (if rp < 2.5 then ⌊(specRecommended e s account rp : ℚ) * 1.25⌋
             else specRecommended e s account rp)
            (pyAbs (e - s)) (account * (rp / 100))
            ((specRecommended e s account rp : ℚ) * e)
            ((specRecommended e s account rp : ℚ) * e / account * 100)) := by
        rw [calculate_position_size, if_neg hse]
        dsimp only
        rw [pyDiv, if_neg hane]
        dsimp only
        rw [h1, h2, h3]
      refine ⟨?_, ?_⟩
      · rw [heq]
        constructor
        · intro hcontra
          cases hcontra
        · rintro (h | h)
          · cases h
          · rw [Option.some_inj] at h
            exact absurd h.symm hse
      · intro s' hs' _
        rw [Option.some_inj] at hs'
        subst hs'
        exact heq

/-- Witness for the amended C7 at entry 50, stop 40, account 10000, risk 2%
(recommended 20 shares, conservative 15, aggressive 25). -/
theorem C7_position_size_witness :
    (0 : ℚ) < 10000 ∧ (0 : ℚ) ≤ 2 ∧
      ((calculate_position_size 50 (some 40) 10000 2 = .ok .errPayload) ↔
        ((some (40 : ℚ)) = none ∨ (some (40 : ℚ)) = some 50)) ∧
      (∀ s, (some (40 : ℚ)) = some s → s ≠ 50 →
        calculate_position_size 50 (some 40) 10000 2 =
          .ok (.sizes (specRecommended 50 s 10000 2)
            ⌊(specRecommended 50 s 10000 2 : ℚ) * 0.75⌋
            (if (2 : ℚ) < 2.5 then ⌊(specRecommended 50 s 10000 2 : ℚ) * 1.25⌋
             else specRecommended 50 s 10000 2)
            (pyAbs (50 - s)) (10000 * ((2 : ℚ) / 100))
            ((specRecommended 50 s 10000 2 : ℚ) * 50)
            ((specRecommended 50 s 10000 2 : ℚ) * 50 / 10000 * 100))) :=
  ⟨by norm_num, by norm_num,
    (C7_position_size 50 (some 40) 10000 2 (by norm_num) (by norm_num)).1,
    (C7_position_size 50 (some 40) 10000 2 (by norm_num) (by norm_num)).2⟩
